import Mathlib

/-!
Shallow embedding of the tool layer of `wireshark_mcp_server.py`
(class `WiresharkTools` and the MCP tool handler `wireshark_capture_packets`).

External process execution (`subprocess.run`) is modelled by a `Runner`
parameter mapping an argv to a `ProcOutcome`; Python exceptions are modelled
with `Except PyExc`.  The functions that spawn processes additionally return
the list of argvs they handed to `subprocess.run`, so that "no process is
spawned" statements are exact.
-/

/-- Value of a Python dict entry in the structured results the tools return. -/
inductive PyVal where
  | str (s : String)
  | bool (b : Bool)
  | pyNone
deriving DecidableEq, Repr

/-- A Python dict result, in insertion order. -/
abbrev PyDict := List (String × PyVal)

/-- Outcome of one attempt to spawn the external process on a given argv:
the binary is absent (Python raises `FileNotFoundError`), the spawn machinery
raises a `subprocess.SubprocessError` with a message, or the process runs to
completion with an exit code, stdout and stderr. -/
inductive ProcOutcome where
  | spawnFailure
  | subprocErr (msg : String)
  | ran (returncode : Int) (stdout stderr : String)
deriving DecidableEq, Repr

/-- The Python exceptions relevant to the embedded code:
`FileNotFoundError` (binary absent) and `subprocess.SubprocessError`
(which includes `CalledProcessError` raised by `check=True`). -/
inductive PyExc where
  | fileNotFoundError
  | subprocessError (msg : String)
deriving DecidableEq, Repr

/-- The environment: what happens when a given argv is spawned. -/
abbrev Runner := List String → ProcOutcome

/-- Single quote character, used inside messages rendered Python-style. -/
def squote : String := String.singleton (Char.ofNat 39)

/-- Python `str(e)` for the modelled exceptions. -/
def excStr : PyExc → String
  | .fileNotFoundError => "[Errno 2] No such file or directory: " ++ squote ++ "tshark" ++ squote
  | .subprocessError m => m

/-- Embeds `subprocess.run(argv, check=check)`: a spawn failure raises
`FileNotFoundError`; with `check=True` a non-zero exit raises
`CalledProcessError` (a `SubprocessError`); otherwise the completed process
is returned as (returncode, stdout, stderr). -/
def subprocessRun (runner : Runner) (argv : List String) (check : Bool) :
    Except PyExc (Int × String × String) :=
  match runner argv with
  | .spawnFailure => .error .fileNotFoundError
  | .subprocErr m => .error (.subprocessError m)
  | .ran rc out err =>
      if check = true ∧ rc ≠ 0 then
        .error (.subprocessError ("Command returned non-zero exit status"))
      else
        .ok (rc, out, err)

/-- Python whitespace characters stripped by `str.strip()`. -/
def isPySpace (c : Char) : Bool :=
  c = ' ' || c = '\t' || c = '\n' || c = '\r' || c = '\x0b' || c = '\x0c'

/-- Python `s.strip()`: remove leading and trailing whitespace. -/
def pyStrip (s : String) : String :=
  String.mk (((s.toList.dropWhile isPySpace).reverse.dropWhile isPySpace).reverse)

/-- Python `s.rstrip(".")`: remove all trailing period characters. -/
def rstripDots (s : String) : String :=
  String.mk ((s.toList.reverse.dropWhile (fun c => c = '.')).reverse)

/-- Python `line.split(" ", 1)`: at the first space character the line splits
into the part before it and the whole remainder after it; with no space the
result is the one-element list holding the line. -/
def splitFirstSpace (line : String) : List String :=
  match line.toList.span (fun c => c != ' ') with
  | (_, []) => [line]
  | (before, _ :: rest) => [String.mk before, String.mk rest]

/-- Python `s.split("\n")` on a character list: splits at every newline,
keeping empty segments, and yields one (possibly empty) segment at least. -/
def splitOnNl (cs : List Char) : List (List Char) :=
  cs.foldr
    (fun c acc =>
      if c = '\n' then [] :: acc
      else
        match acc with
        | [] => [[c]]
        | h :: t => (c :: h) :: t)
    [[]]

/-- Python `s.split("\n")`. -/
def pySplitLines (s : String) : List String :=
  (splitOnNl s.toList).map String.mk

/-- Record produced for one interface line: `{"index": ..., "interface": ...}`. -/
structure InterfaceRecord where
  index : String
  interface : String
deriving DecidableEq, Repr

/-- The body of the per-line loop of `get_available_interfaces`: a non-empty
line that splits (on the first space) into two parts becomes a record with
the trailing periods stripped from the first part; every other line
produces nothing. -/
def parseInterfaceLine (line : String) : Option InterfaceRecord :=
  if line = "" then none
  else
    match splitFirstSpace line with
    | [p0, p1] => some ⟨rstripDots p0, p1⟩
    | _ => none

/-- The interface-list parse of `get_available_interfaces`:
`result.stdout.strip().split("\n")` followed by the per-line loop. -/
def parseInterfaces (stdout : String) : List InterfaceRecord :=
  (pySplitLines (pyStrip stdout)).filterMap parseInterfaceLine

/-- `WiresharkTools.check_wireshark_installed`: runs
`tshark --version` with `check=True`; both `SubprocessError` and
`FileNotFoundError` are caught and yield `False`. -/
def check_wireshark_installed (runner : Runner) : Except PyExc Bool :=
  match subprocessRun runner ["tshark", "--version"] true with
  | .ok _ => .ok true
  | .error .fileNotFoundError => .ok false
  | .error (.subprocessError _) => .ok false

/-- `WiresharkTools.get_available_interfaces`: runs `tshark -D` with
`check=True` and parses stdout; only `subprocess.SubprocessError` is caught
(yielding `[]`), so a `FileNotFoundError` from a missing binary propagates. -/
def get_available_interfaces (runner : Runner) : Except PyExc (List InterfaceRecord) :=
  match subprocessRun runner ["tshark", "-D"] true with
  | .ok (_, out, _) => .ok (parseInterfaces out)
  | .error (.subprocessError _) => .ok []
  | .error .fileNotFoundError => .error .fileNotFoundError

/-- Python truthiness of an optional string argument (`if filter_str:`):
true exactly for a present, non-empty string. -/
def pyTruthy : Option String → Bool
  | Option.none => false
  | some s => s ≠ ""

/-- Python truthiness of an optional int argument (`if limit:`):
true exactly for a present, non-zero integer. -/
def pyTruthyInt : Option Int → Bool
  | Option.none => false
  | some n => n ≠ 0

/-- The argv built by `WiresharkTools.capture_packets`. -/
def capture_cmd (interface : String) (duration : Int)
    (filter_str output_file : Option String) : List String :=
  ["tshark", "-i", interface, "-a", "duration:" ++ toString duration]
    ++ (if pyTruthy filter_str then ["-f", filter_str.getD ""] else [])
    ++ (if pyTruthy output_file then ["-w", output_file.getD ""] else [])

/-- `WiresharkTools.capture_packets`: builds the capture argv, runs it
without `check`, and wraps the outcome; only `SubprocessError` is caught.
The second component lists the argvs handed to `subprocess.run`. -/
def capture_packets (runner : Runner) (interface : String) (duration : Int)
    (filter_str output_file : Option String) :
    Except PyExc PyDict × List (List String) :=
  let cmd := capture_cmd interface duration filter_str output_file
  match subprocessRun runner cmd false with
  | .ok (rc, out, err) =>
      (.ok [("success", .bool (rc == 0)), ("stdout", .str out), ("stderr", .str err),
            ("output_file", if pyTruthy output_file then .str (output_file.getD "") else .pyNone)],
       [cmd])
  | .error (.subprocessError m) =>
      (.ok [("success", .bool false), ("error", .str m)], [cmd])
  | .error .fileNotFoundError => (.error .fileNotFoundError, [cmd])

/-- The argv built by `WiresharkTools.read_capture_file`. -/
def read_cmd (file_path : String) (filter_str : Option String)
    (limit : Option Int) : List String :=
  ["tshark", "-r", file_path]
    ++ (if pyTruthy filter_str then ["-Y", filter_str.getD ""] else [])
    ++ (if pyTruthyInt limit then ["-c", toString (limit.getD 0)] else [])

/-- `WiresharkTools.read_capture_file`: builds the read argv, runs it
without `check`, and wraps the outcome; only `SubprocessError` is caught. -/
def read_capture_file (runner : Runner) (file_path : String)
    (filter_str : Option String) (limit : Option Int) :
    Except PyExc PyDict × List (List String) :=
  let cmd := read_cmd file_path filter_str limit
  match subprocessRun runner cmd false with
  | .ok (rc, out, err) =>
      (.ok [("success", .bool (rc == 0)), ("stdout", .str out), ("stderr", .str err)], [cmd])
  | .error (.subprocessError m) =>
      (.ok [("success", .bool false), ("error", .str m)], [cmd])
  | .error .fileNotFoundError => (.error .fileNotFoundError, [cmd])

/-- The `supported_types` dict of `WiresharkTools.analyze_capture`. -/
def supported_types : List (String × String) :=
  [("conversations", "conv,ip"),
   ("endpoints", "endpoints,ip"),
   ("protocols", "io,phs"),
   ("http", "http,tree"),
   ("dns", "dns,tree")]

/-- Python `repr(list(supported_types.keys()))` as interpolated into the
rejection message. -/
def supportedKeysRepr : String :=
  "[" ++ String.intercalate ", "
    (supported_types.map (fun p => squote ++ p.1 ++ squote)) ++ "]"

/-- The rejection message for an unsupported analysis type. -/
def unsupportedMsg (analysis_type : String) : String :=
  "不支持的分析类型: " ++ analysis_type ++ ". 支持的类型: " ++ supportedKeysRepr

/-- `WiresharkTools.analyze_capture`: rejects an unknown analysis type before
any spawn, otherwise runs `tshark -r file -q -z <selector>` without `check`;
only `SubprocessError` is caught. -/
def analyze_capture (runner : Runner) (file_path analysis_type : String) :
    Except PyExc PyDict × List (List String) :=
  match supported_types.lookup analysis_type with
  | Option.none =>
      (.ok [("success", .bool false), ("error", .str (unsupportedMsg analysis_type))], [])
  | some selector =>
      let cmd := ["tshark", "-r", file_path, "-q", "-z", selector]
      match subprocessRun runner cmd false with
      | .ok (rc, out, err) =>
          (.ok [("success", .bool (rc == 0)), ("stdout", .str out), ("stderr", .str err)], [cmd])
      | .error (.subprocessError m) =>
          (.ok [("success", .bool false), ("error", .str m)], [cmd])
      | .error .fileNotFoundError => (.error .fileNotFoundError, [cmd])

/-- The default output file name synthesized by the `wireshark_capture_packets`
tool handler from the current epoch second. -/
def defaultOutputName (now : Nat) : String :=
  "capture_" ++ toString now ++ ".pcap"

/-- The MCP tool handler `wireshark_capture_packets`: defaults the output
file to a time-stamped name when the argument is not truthy, delegates to
`capture_packets`, and converts any exception escaping the body into a
`success=False` dict with the exception text. -/
def wireshark_capture_packets (runner : Runner) (now : Nat) (interface : String)
    (duration : Int) (filter_str output_file : Option String) :
    PyDict × List (List String) :=
  let output_file' :=
    if pyTruthy output_file then output_file else some (defaultOutputName now)
  match capture_packets runner interface duration filter_str output_file' with
  | (.ok d, log) => (d, log)
  | (.error e, log) => ([("success", .bool false), ("error", .str (excStr e))], log)

/-- Whether a returned dict carries the given key. -/
abbrev hasKey (d : PyDict) (k : String) : Bool :=
  (d.lookup k).isSome

/-- A success-shaped result: process-outcome fields present, no error field. -/
abbrev successShaped (d : PyDict) : Prop :=
  hasKey d "stdout" = true ∧ hasKey d "stderr" = true ∧ hasKey d "error" = false

/-- A failure-shaped result: an error message, no process-outcome fields. -/
abbrev failureShaped (d : PyDict) : Prop :=
  hasKey d "error" = true ∧ hasKey d "stdout" = false ∧ hasKey d "stderr" = false

/-- Shape invariant for a handler outcome: whenever a dict is returned it is
success-shaped or failure-shaped, and never carries both the process-outcome
fields and an error field. -/
def resultShapeOk : Except PyExc PyDict → Prop
  | .ok d => (successShaped d ∨ failureShaped d) ∧
      ¬(hasKey d "stdout" = true ∧ hasKey d "error" = true)
  | .error _ => True

/-- C1 counterexample: with an environment in which `tshark --version` spawns,
starts and exits with status 1, `check_wireshark_installed` returns false,
refuting the claim that it returns true whenever the spawn succeeds and the
process starts, with the exit code not inspected. -/
theorem check_wireshark_installed_counterexample :
    (∃ rc out err, (fun (_ : List String) => ProcOutcome.ran 1 "" "") ["tshark", "--version"]
        = ProcOutcome.ran rc out err) ∧
    check_wireshark_installed (fun _ => ProcOutcome.ran 1 "" "") = .ok false :=
  ⟨⟨1, "", "", rfl⟩, rfl⟩

/-- C1 (amended): `check_wireshark_installed` never throws, and returns true
iff the spawn succeeds and the spawned process exits with status 0 — the
version probe runs with `check=True`, so a non-zero exit raises a caught
`CalledProcessError` and yields false; a missing binary also yields false. -/
theorem check_wireshark_installed_exit_code (runner : Runner) :
    check_wireshark_installed runner =
      .ok (match runner ["tshark", "--version"] with
           | .ran rc _ _ => rc == 0
           | _ => false) := by
  unfold check_wireshark_installed subprocessRun
  cases h : runner ["tshark", "--version"] with
  | spawnFailure => simp
  | subprocErr m => simp
  | ran rc out err =>
    by_cases hrc : rc = 0 <;> simp [hrc]

/-- C2 counterexample: with an environment in which the binary is absent
(`FileNotFoundError` on spawn), `get_available_interfaces` propagates the
exception instead of returning an empty sequence, refuting the claim that
every process-level failure yields an empty sequence without raising. -/
theorem get_available_interfaces_counterexample :
    get_available_interfaces (fun _ => ProcOutcome.spawnFailure) =
      .error .fileNotFoundError := rfl

/-- C2 (amended): `get_available_interfaces` returns an empty sequence for
process-level failures raised as `subprocess.SubprocessError` — including a
non-zero exit, which `check=True` converts to `CalledProcessError` — but a
`FileNotFoundError` from a missing or unspawnable binary propagates out. -/
theorem get_available_interfaces_characterization (runner : Runner) :
    get_available_interfaces runner =
      match runner ["tshark", "-D"] with
      | .spawnFailure => .error .fileNotFoundError
      | .subprocErr _ => .ok []
      | .ran rc out _ => if rc = 0 then .ok (parseInterfaces out) else .ok [] := by
  unfold get_available_interfaces subprocessRun
  cases h : runner ["tshark", "-D"] with
  | spawnFailure => simp
  | subprocErr m => simp
  | ran rc out err =>
    by_cases hrc : rc = 0 <;> simp [hrc]

/-- C3: interface-list parsing turns the output lines
`"1. en0 (Wi-Fi)"` and `"2. lo0 (Loopback)"` into exactly the two records
`{index: "1", interface: "en0 (Wi-Fi)"}` and
`{index: "2", interface: "lo0 (Loopback)"}` in order, and every line either
yields no record, or is non-empty, splits at the first space into two parts,
and yields the record built from the period-stripped first part and the
remainder. -/
theorem interface_parsing :
    (get_available_interfaces (fun _ => ProcOutcome.ran 0 "1. en0 (Wi-Fi)\n2. lo0 (Loopback)" "")
      = .ok [⟨"1", "en0 (Wi-Fi)"⟩, ⟨"2", "lo0 (Loopback)"⟩]) ∧
    ∀ line : String, parseInterfaceLine line = Option.none ∨
      (line ≠ "" ∧ ∃ p0 p1, splitFirstSpace line = [p0, p1] ∧
        parseInterfaceLine line = some ⟨rstripDots p0, p1⟩) := by
  constructor
  · rfl
  · intro line
    by_cases hl : line = ""
    · exact Or.inl (by simp [parseInterfaceLine, hl])
    · rcases hs : splitFirstSpace line with _ | ⟨p0, _ | ⟨p1, _ | _⟩⟩
      · exact Or.inl (by simp [parseInterfaceLine, hl, hs])
      · exact Or.inl (by simp [parseInterfaceLine, hl, hs])
      · exact Or.inr ⟨hl, p0, p1, rfl, by simp [parseInterfaceLine, hl, hs]⟩
      · exact Or.inl (by simp [parseInterfaceLine, hl, hs])

/-- Closed instance of `interface_parsing` at the line `"3. eth0 (wired)"`. -/
theorem interface_parsing_witness :
    parseInterfaceLine "3. eth0 (wired)" = Option.none ∨
      ("3. eth0 (wired)" ≠ "" ∧ ∃ p0 p1, splitFirstSpace "3. eth0 (wired)" = [p0, p1] ∧
        parseInterfaceLine "3. eth0 (wired)" = some ⟨rstripDots p0, p1⟩) :=
  interface_parsing.2 "3. eth0 (wired)"

/-- C4: for an analysis-type name outside the fixed table,
`analyze_capture` fails with the message enumerating the valid names
(each table key occurs in the message), and the spawn log is empty: no
external process is spawned before the rejection. -/
theorem analyze_capture_invalid_type (runner : Runner) (fp t : String)
    (h : supported_types.lookup t = Option.none) :
    analyze_capture runner fp t =
      (.ok [("success", .bool false), ("error", .str (unsupportedMsg t))], []) ∧
    ∀ k ∈ supported_types.map Prod.fst, k.toList <:+: (unsupportedMsg t).toList := by
  constructor
  · unfold analyze_capture
    rw [h]
  · intro k hk
    have hsub : k.toList <:+: supportedKeysRepr.toList := by
      simp [supported_types] at hk
      rcases hk with rfl | rfl | rfl | rfl | rfl <;> decide
    obtain ⟨u, v, huv⟩ := hsub
    refine ⟨("不支持的分析类型: " ++ t ++ ". 支持的类型: ").toList ++ u, v, ?_⟩
    have hsplit : (unsupportedMsg t).toList =
        ("不支持的分析类型: " ++ t ++ ". 支持的类型: ").toList ++ supportedKeysRepr.toList := by
      simp [unsupportedMsg, String.toList, String.data_append]
    rw [hsplit, ← huv]
    simp

/-- Closed instance of `analyze_capture_invalid_type` at the name "tcp". -/
theorem analyze_capture_invalid_type_witness :
    analyze_capture (fun _ => ProcOutcome.ran 0 "" "") "f.pcap" "tcp" =
      (.ok [("success", .bool false), ("error", .str (unsupportedMsg "tcp"))], []) ∧
    ∀ k ∈ supported_types.map Prod.fst, k.toList <:+: (unsupportedMsg "tcp").toList :=
  analyze_capture_invalid_type (fun _ => ProcOutcome.ran 0 "" "") "f.pcap" "tcp" (by decide)

/-- C5: the analysis-type table has pairwise distinct keys (every key maps to
exactly one selector string), and for every valid analysis-type name
`analyze_capture` spawns exactly one invocation whose argv is the
statistics-report command built from the selector mapped to that name. -/
theorem supported_types_unique_selector :
    (supported_types.map Prod.fst).Nodup ∧
    ∀ (fp t sel : String), supported_types.lookup t = some sel →
      (analyze_capture (fun _ => ProcOutcome.ran 0 "" "") fp t).snd =
        [["tshark", "-r", fp, "-q", "-z", sel]] := by
  constructor
  · decide
  · intro fp t sel h
    unfold analyze_capture
    rw [h]
    rfl

/-- Closed instance of `supported_types_unique_selector` at the name "http",
whose selector is "http,tree". -/
theorem supported_types_unique_selector_witness :
    (analyze_capture (fun _ => ProcOutcome.ran 0 "" "") "f.pcap" "http").snd =
      [["tshark", "-r", "f.pcap", "-q", "-z", "http,tree"]] :=
  supported_types_unique_selector.2 "f.pcap" "http" "http,tree" (by decide)

/-- The synthesized default capture file name is never the empty string. -/
theorem defaultOutputName_ne_empty (now : Nat) : defaultOutputName now ≠ "" := by
  intro h
  have h2 := congrArg String.data h
  simp [defaultOutputName, String.data_append] at h2

/-- C6: the capture argv is the base capture invocation with the interface
token and a duration bound equal to the requested duration, extended by the
filter flag exactly when a filter is given and by the write-to-file flag
exactly when an output path is given (concretely, duration 5 on interface
"1" with neither option gives `tshark -i 1 -a duration:5`); and when the
tool handler is called without an output path it synthesizes the
time-stamped default name, so the returned result carries that non-empty
output file name. -/
theorem capture_argv_default_output :
    (∀ (i : String) (dur : Int) (f o : Option String) (rc : Int) (out err : String),
      (capture_packets (fun _ => ProcOutcome.ran rc out err) i dur f o).snd =
        [["tshark", "-i", i, "-a", "duration:" ++ toString dur]
          ++ (if pyTruthy f then ["-f", f.getD ""] else [])
          ++ (if pyTruthy o then ["-w", o.getD ""] else [])]) ∧
    ((capture_packets (fun _ => ProcOutcome.ran 0 "" "") "1" 5 Option.none Option.none).snd =
      [["tshark", "-i", "1", "-a", "duration:5"]]) ∧
    (∀ (now : Nat) (i : String) (dur : Int) (f : Option String) (rc : Int) (out err : String),
      ((wireshark_capture_packets (fun _ => ProcOutcome.ran rc out err)
          now i dur f Option.none).fst).lookup "output_file"
        = some (.str (defaultOutputName now)) ∧ defaultOutputName now ≠ "") := by
  refine ⟨fun i dur f o rc out err => rfl, rfl, fun now i dur f rc out err => ?_⟩
  have ht : pyTruthy (some (defaultOutputName now)) = true := by
    simp [pyTruthy, defaultOutputName_ne_empty now]
  have hd : (wireshark_capture_packets (fun _ => ProcOutcome.ran rc out err)
      now i dur f Option.none).fst =
      [("success", .bool (rc == 0)), ("stdout", .str out), ("stderr", .str err),
       ("output_file", .str (defaultOutputName now))] := by
    simp [wireshark_capture_packets, capture_packets, subprocessRun, capture_cmd, ht, pyTruthy,
      defaultOutputName_ne_empty now]
  rw [hd]
  exact ⟨rfl, defaultOutputName_ne_empty now⟩

/-- C7: for every exit status of the spawned process, capture, read and
analyze return (never raise) a structured outcome whose success field is
exactly `exit status == 0`, carrying the captured stdout and stderr. -/
theorem success_iff_zero_exit (rc : Int) (out err : String) (i fp : String)
    (dur : Int) (f o fil : Option String) (lim : Option Int) (t sel : String)
    (h : supported_types.lookup t = some sel) :
    (capture_packets (fun _ => ProcOutcome.ran rc out err) i dur f o).fst =
      .ok [("success", .bool (rc == 0)), ("stdout", .str out), ("stderr", .str err),
           ("output_file", if pyTruthy o then .str (o.getD "") else .pyNone)] ∧
    (read_capture_file (fun _ => ProcOutcome.ran rc out err) fp fil lim).fst =
      .ok [("success", .bool (rc == 0)), ("stdout", .str out), ("stderr", .str err)] ∧
    (analyze_capture (fun _ => ProcOutcome.ran rc out err) fp t).fst =
      .ok [("success", .bool (rc == 0)), ("stdout", .str out), ("stderr", .str err)] := by
  refine ⟨rfl, rfl, ?_⟩
  unfold analyze_capture
  rw [h]
  rfl

/-- Closed instance of `success_iff_zero_exit` at exit status 3 and the
analysis type "dns". -/
theorem success_iff_zero_exit_witness :
    (capture_packets (fun _ => ProcOutcome.ran 3 "o" "e") "1" 5 Option.none Option.none).fst =
      .ok [("success", .bool false), ("stdout", .str "o"), ("stderr", .str "e"),
           ("output_file", .pyNone)] ∧
    (analyze_capture (fun _ => ProcOutcome.ran 3 "o" "e") "f.pcap" "dns").fst =
      .ok [("success", .bool false), ("stdout", .str "o"), ("stderr", .str "e")] := by
  have h := success_iff_zero_exit 3 "o" "e" "1" "f.pcap" 5 Option.none Option.none
    Option.none Option.none "dns" "dns,tree" (by decide)
  exact ⟨h.1, h.2.2⟩

/-- C8: whatever the environment does, each of capture, read and analyze
returns exactly one result dict which is success-shaped (process-outcome
fields, no error field) or failure-shaped (an error message, no
process-outcome fields), and never has both the process-outcome fields
and an error field populated at once. -/
theorem handler_result_shape (runner : Runner) (i fp t : String) (dur : Int)
    (f o fil : Option String) (lim : Option Int) :
    resultShapeOk (capture_packets runner i dur f o).fst ∧
    resultShapeOk (read_capture_file runner fp fil lim).fst ∧
    resultShapeOk (analyze_capture runner fp t).fst := by
  refine ⟨?_, ?_, ?_⟩
  · cases h : runner (capture_cmd i dur f o) with
    | spawnFailure =>
      have hd : (capture_packets runner i dur f o).fst = .error .fileNotFoundError := by
        simp [capture_packets, subprocessRun, h]
      rw [hd]; trivial
    | subprocErr m =>
      have hd : (capture_packets runner i dur f o).fst =
          .ok [("success", .bool false), ("error", .str m)] := by
        simp [capture_packets, subprocessRun, h]
      rw [hd]; exact ⟨Or.inr ⟨rfl, rfl, rfl⟩, fun hc => absurd hc.1 Bool.false_ne_true⟩
    | ran rc out err =>
      have hd : (capture_packets runner i dur f o).fst =
          .ok [("success", .bool (rc == 0)), ("stdout", .str out), ("stderr", .str err),
               ("output_file", if pyTruthy o then .str (o.getD "") else .pyNone)] := by
        simp [capture_packets, subprocessRun, h]
      rw [hd]; exact ⟨Or.inl ⟨rfl, rfl, rfl⟩, fun hc => absurd hc.2 Bool.false_ne_true⟩
  · cases h : runner (read_cmd fp fil lim) with
    | spawnFailure =>
      have hd : (read_capture_file runner fp fil lim).fst = .error .fileNotFoundError := by
        simp [read_capture_file, subprocessRun, h]
      rw [hd]; trivial
    | subprocErr m =>
      have hd : (read_capture_file runner fp fil lim).fst =
          .ok [("success", .bool false), ("error", .str m)] := by
        simp [read_capture_file, subprocessRun, h]
      rw [hd]; exact ⟨Or.inr ⟨rfl, rfl, rfl⟩, fun hc => absurd hc.1 Bool.false_ne_true⟩
    | ran rc out err =>
      have hd : (read_capture_file runner fp fil lim).fst =
          .ok [("success", .bool (rc == 0)), ("stdout", .str out), ("stderr", .str err)] := by
        simp [read_capture_file, subprocessRun, h]
      rw [hd]; exact ⟨Or.inl ⟨rfl, rfl, rfl⟩, fun hc => absurd hc.2 Bool.false_ne_true⟩
  · rcases hl : supported_types.lookup t with _ | sel
    · have hd : (analyze_capture runner fp t).fst =
          .ok [("success", .bool false), ("error", .str (unsupportedMsg t))] := by
        simp [analyze_capture, hl]
      rw [hd]; exact ⟨Or.inr ⟨rfl, rfl, rfl⟩, fun hc => absurd hc.1 Bool.false_ne_true⟩
    · cases h : runner ["tshark", "-r", fp, "-q", "-z", sel] with
      | spawnFailure =>
        have hd : (analyze_capture runner fp t).fst = .error .fileNotFoundError := by
          simp [analyze_capture, hl, subprocessRun, h]
        rw [hd]; trivial
      | subprocErr m =>
        have hd : (analyze_capture runner fp t).fst =
            .ok [("success", .bool false), ("error", .str m)] := by
          simp [analyze_capture, hl, subprocessRun, h]
        rw [hd]; exact ⟨Or.inr ⟨rfl, rfl, rfl⟩, fun hc => absurd hc.1 Bool.false_ne_true⟩
      | ran rc out err =>
        have hd : (analyze_capture runner fp t).fst =
            .ok [("success", .bool (rc == 0)), ("stdout", .str out), ("stderr", .str err)] := by
          simp [analyze_capture, hl, subprocessRun, h]
        rw [hd]; exact ⟨Or.inl ⟨rfl, rfl, rfl⟩, fun hc => absurd hc.2 Bool.false_ne_true⟩

/-- Closed instance of `handler_result_shape` on a zero-exit environment. -/
theorem handler_result_shape_witness :
    resultShapeOk (capture_packets (fun _ => ProcOutcome.ran 0 "" "") "1" 5
      Option.none Option.none).fst ∧
    resultShapeOk (read_capture_file (fun _ => ProcOutcome.ran 0 "" "") "f.pcap"
      Option.none (some 100)).fst ∧
    resultShapeOk (analyze_capture (fun _ => ProcOutcome.ran 0 "" "") "f.pcap" "protocols").fst :=
  handler_result_shape (fun _ => ProcOutcome.ran 0 "" "") "1" "f.pcap" "protocols" 5
    Option.none Option.none Option.none (some 100)

/-- C9: the record-limit flag is appended to the read argv exactly when the
limit is truthy — for every positive limit the argv ends with `-c` and the
decimal rendering of the limit, while a limit of 0 or None omits the flag
entirely. -/
theorem read_limit_flag (fp : String) (f : Option String) :
    (∀ n : Int, 0 < n →
      (read_capture_file (fun _ => ProcOutcome.ran 0 "" "") fp f (some n)).snd =
        [["tshark", "-r", fp] ++ (if pyTruthy f then ["-Y", f.getD ""] else [])
          ++ ["-c", toString n]]) ∧
    ((read_capture_file (fun _ => ProcOutcome.ran 0 "" "") fp f (some 0)).snd =
      [["tshark", "-r", fp] ++ (if pyTruthy f then ["-Y", f.getD ""] else [])]) ∧
    ((read_capture_file (fun _ => ProcOutcome.ran 0 "" "") fp f Option.none).snd =
      [["tshark", "-r", fp] ++ (if pyTruthy f then ["-Y", f.getD ""] else [])]) := by
  refine ⟨fun n hn => ?_, ?_, ?_⟩
  · have ht : pyTruthyInt (some n) = true := by
      simp [pyTruthyInt]
      omega
    simp [read_capture_file, subprocessRun, read_cmd, ht]
  · simp [read_capture_file, subprocessRun, read_cmd, pyTruthyInt]
  · simp [read_capture_file, subprocessRun, read_cmd, pyTruthyInt]

/-- Closed instance of `read_limit_flag` at limit 7 with no filter. -/
theorem read_limit_flag_witness :
    (read_capture_file (fun _ => ProcOutcome.ran 0 "" "") "f.pcap"
      Option.none (some 7)).snd = [["tshark", "-r", "f.pcap", "-c", "7"]] := by
  have h := (read_limit_flag "f.pcap" Option.none).1 7 (by decide)
  simpa using h

/-- C10: the `wireshark_capture_packets` tool handler never raises: it always
returns a dict with a boolean `success` key, and an exception escaping the
capture call — here the `FileNotFoundError` of an unspawnable binary — is
converted into a `success=False` dict carrying the exception text. -/
theorem wireshark_capture_packets_never_raises (runner : Runner) (now : Nat)
    (i : String) (dur : Int) (f o : Option String) :
    (∃ b, ((wireshark_capture_packets runner now i dur f o).fst).lookup "success"
        = some (.bool b)) ∧
    (runner (capture_cmd i dur f (if pyTruthy o then o else some (defaultOutputName now)))
        = ProcOutcome.spawnFailure →
      (wireshark_capture_packets runner now i dur f o).fst =
        [("success", .bool false), ("error", .str (excStr .fileNotFoundError))]) := by
  constructor
  · cases h : runner (capture_cmd i dur f (if pyTruthy o then o else some (defaultOutputName now))) with
    | spawnFailure =>
      have hd : (wireshark_capture_packets runner now i dur f o).fst =
          [("success", .bool false), ("error", .str (excStr .fileNotFoundError))] := by
        simp [wireshark_capture_packets, capture_packets, subprocessRun, h]
      exact ⟨false, by rw [hd]; rfl⟩
    | subprocErr m =>
      have hd : (wireshark_capture_packets runner now i dur f o).fst =
          [("success", .bool false), ("error", .str m)] := by
        simp [wireshark_capture_packets, capture_packets, subprocessRun, h]
      exact ⟨false, by rw [hd]; rfl⟩
    | ran rc out err =>
      have ht : pyTruthy (if pyTruthy o then o else some (defaultOutputName now)) = true := by
        cases hp : pyTruthy o with
        | true => simp [hp]
        | false => simp [hp, pyTruthy, defaultOutputName_ne_empty now]
      have hd : (wireshark_capture_packets runner now i dur f o).fst =
          [("success", .bool (rc == 0)), ("stdout", .str out), ("stderr", .str err),
           ("output_file", .str ((if pyTruthy o then o else some (defaultOutputName now)).getD ""))] := by
        simp [wireshark_capture_packets, capture_packets, subprocessRun, h, ht]
      exact ⟨rc == 0, by rw [hd]; rfl⟩
  · intro hsp
    simp [wireshark_capture_packets, capture_packets, subprocessRun, hsp]

/-- Closed instance of `wireshark_capture_packets_never_raises` on an
environment whose binary is absent. -/
theorem wireshark_capture_packets_never_raises_witness :
    (wireshark_capture_packets (fun _ => ProcOutcome.spawnFailure) 0 "1" 5
      Option.none Option.none).fst =
      [("success", .bool false), ("error", .str (excStr .fileNotFoundError))] :=
  (wireshark_capture_packets_never_raises (fun _ => ProcOutcome.spawnFailure) 0 "1" 5
    Option.none Option.none).2 rfl
